import Mathlib

/-!
Verification development for the bunny-route RabbitMQ client library.

The definitions below are a shallow embedding of the TypeScript sources:
pure decision code becomes Lean functions, stateful code becomes explicit
state passing or small step relations, and effectful channel operations
become explicit effect lists. JS numbers are modelled as Int/Nat/Rat as
appropriate; absent (undefined/null) values as Option.
-/

namespace BunnyRoute

/-! ## JS-level helpers -/

/-- Values appearing in an AMQP header table: the library writes numbers and
strings there (src/server/RMQServer.ts writes `x-retry-count` as a number and
`x-original-routing-key` as a string). -/
inductive HVal where
  | num (n : Int)
  | str (s : String)
deriving DecidableEq, Repr

/-- Header tables, modelled as association lists keyed by header name. -/
abbrev Headers := List (String × HVal)

/-- Lookup in an association list (JS object property read). -/
def lookupAssoc {α : Type} (l : List (String × α)) (k : String) : Option α :=
  match l with
  | [] => none
  | (k2, v) :: rest => if k2 = k then some v else lookupAssoc rest k

/-- Property assignment on a JS object modelled as an association list:
overwrite in place if the key exists, append otherwise. -/
def setAssoc {α : Type} (l : List (String × α)) (k : String) (v : α) :
    List (String × α) :=
  match l with
  | [] => [(k, v)]
  | (k2, w) :: rest => if k2 = k then (k2, v) :: rest else (k2, w) :: setAssoc rest k v

/-- JS truthiness of a header value: the number 0 and the empty string are
falsy, everything else representable here is truthy. -/
def hvalTruthy : HVal → Bool
  | .num n => n ≠ 0
  | .str s => s ≠ ""

/-- Model of JS `parseInt(s, 10)`: skip leading spaces, honour an optional
sign, read a maximal digit prefix; `none` models the NaN result. -/
def jsParseInt (s : String) : Option Int :=
  let t := s.toList.dropWhile (· = ' ')
  let signAndRest : Int × List Char :=
    match t with
    | '-' :: rest => (-1, rest)
    | '+' :: rest => (1, rest)
    | _ => (1, t)
  let digits := signAndRest.2.takeWhile Char.isDigit
  if digits.isEmpty then none
  else some (signAndRest.1 * digits.foldl (fun acc c => acc * 10 + ((c.toNat : Int) - 48)) 0)

/-- Comparison `c < m` where `c` is a JS number that may be NaN (`none`):
any comparison with NaN is false. -/
def jsLtNum (c : Option Int) (m : Int) : Bool :=
  match c with
  | some n => n < m
  | none => false

/-- Does the first character list start with the second one? -/
def charsStartWith : List Char → List Char → Bool
  | _, [] => true
  | [], _ :: _ => false
  | c :: cs, d :: ds => c = d && charsStartWith cs ds

/-- Does the second character list occur contiguously inside the first? -/
def charsContain (hay needle : List Char) : Bool :=
  charsStartWith hay needle ||
    match hay with
    | [] => false
    | _ :: cs => charsContain cs needle

/-- Substring containment, models JS `String.prototype.includes`. -/
def strIncludes (hay needle : String) : Bool :=
  charsContain hay.toList needle.toList

/-! ## Error classifier (src/core/RMQConnectionManager.ts `isNonRecoverableError`
and src/interfaces/connection.ts) -/

/-- AMQP error codes classified as non-recoverable in
src/interfaces/connection.ts. -/
def AMQP_NON_RECOVERABLE_ERRORS : List Int :=
  [402, 403, 404, 406, 501, 502, 503, 504, 505, 530, 541]

/-- AMQP error codes explicitly listed as recoverable in
src/interfaces/connection.ts (not consulted by the classifier). -/
def AMQP_RECOVERABLE_ERRORS : List Int :=
  [313, 320, 405, 506]

/-- The observable shape of a JS error as read by the classifier: optional
`code`, optional `replyCode`, optional `message`. -/
structure JsError where
  code : Option Int
  replyCode : Option Int
  message : Option String
deriving DecidableEq, Repr

/-- JS `a || b` on optional numbers: a present non-zero (truthy) `a` wins,
otherwise `b` is used. -/
def jsOrNum : Option Int → Option Int → Option Int
  | some n, b => if n ≠ 0 then some n else b
  | none, b => b

/-- Embedding of `RMQConnectionManager.isNonRecoverableError`. The argument
is `none` when the JS value is absent (falsy guard `if (!error) return false`). -/
def isNonRecoverableError (err : Option JsError) : Bool :=
  match err with
  | none => false
  | some e =>
    let code := jsOrNum e.code e.replyCode
    (match code with
     | some c => decide (c ≠ 0) && AMQP_NON_RECOVERABLE_ERRORS.contains c
     | none => false)
    ||
    (match e.message with
     | some m => strIncludes m "ACCESS_REFUSED" || strIncludes m "authentication"
     | none => false)

/-! ## Consumer (src/server/RMQServer.ts) -/

/-- Shape of `RetryOptions` as supplied by the user: every field optional. -/
structure RetryOptionsIn where
  maxRetries : Option Int
  retryTTL : Option Int
  enabled : Option Bool
deriving DecidableEq, Repr

/-- Shape of `Required<RetryOptions>`: the effective, fully defaulted options. -/
structure RetryOptionsReq where
  maxRetries : Int
  retryTTL : Int
  enabled : Bool
deriving DecidableEq, Repr

/-- Per-handler `HandlerOptions` (src/interfaces/server.ts): optional retry
overrides. The handler function itself is opaque user code; its outcome is
supplied separately to `processMessage`. -/
structure HandlerOptions where
  maxRetries : Option Int
  retryTTL : Option Int
  retryEnabled : Option Bool
deriving DecidableEq, Repr

/-- Handler options with nothing overridden. -/
def noHandlerOverrides : HandlerOptions := ⟨none, none, none⟩

/-- Constructor options of `RMQServer` relevant to retry configuration. -/
structure RMQServerOptionsM where
  appName : String
  exchange : Option String
  retryOptions : Option RetryOptionsIn
deriving DecidableEq, Repr

/-- The retry-relevant fields `RMQServer.constructor` computes. -/
structure ServerState where
  appName : String
  exchange : String
  defaultRetryOptions : RetryOptionsReq
  mainQueueName : String
  retryQueueName : String
  dlqName : String
deriving DecidableEq, Repr

/-- Embedding of the `RMQServer` constructor (the retry/topology-name part);
`??` becomes `Option.getD` on the optional chain. -/
def mkServer (o : RMQServerOptionsM) : ServerState :=
  { appName := o.appName
    exchange := o.exchange.getD o.appName
    defaultRetryOptions :=
      { maxRetries := (o.retryOptions.bind RetryOptionsIn.maxRetries).getD 3
        retryTTL := (o.retryOptions.bind RetryOptionsIn.retryTTL).getD 5000
        enabled := (o.retryOptions.bind RetryOptionsIn.enabled).getD false }
    mainQueueName := o.appName
    retryQueueName := o.appName ++ ".retry"
    dlqName := o.appName ++ ".dlq" }

/-- The effective retry options for one dispatch: per-handler overrides fall
back to the server defaults (`??` chains in `processMessage`). -/
def effectiveRetryOptions (st : ServerState) (opts : HandlerOptions) : RetryOptionsReq :=
  { maxRetries := opts.maxRetries.getD st.defaultRetryOptions.maxRetries
    retryTTL := opts.retryTTL.getD st.defaultRetryOptions.retryTTL
    enabled := opts.retryEnabled.getD st.defaultRetryOptions.enabled }

/-- A delivery as observed by `processMessage`: routing key, optional header
table (`msg.properties.headers` may be absent), raw content, and the RPC
properties. The payload is kept as an opaque string; JSON parsing is a
parameter of `processMessage`. -/
structure ConsumeMessage where
  routingKey : String
  headers : Option Headers
  content : String
  replyTo : Option String
  correlationId : Option String
deriving DecidableEq, Repr

/-- models: `headers[x-retry-count] ? parseInt(headers[x-retry-count], 10) : 0`.
A falsy header value (absent, 0, or empty string) yields 0; a non-numeric
string yields `none` (NaN). -/
def retryCountOf (hs : Headers) : Option Int :=
  match lookupAssoc hs "x-retry-count" with
  | none => some 0
  | some v =>
    if hvalTruthy v then
      match v with
      | .num n => some n
      | .str s => jsParseInt s
    else some 0

/-- Log levels used by the consumer dispatch path. -/
inductive LogLevel where
  | info
  | warn
  | error
deriving DecidableEq, Repr

/-- Channel-visible effects issued by `processMessage`/`sendToDLQ`, in
program order. -/
inductive Effect where
  | log (lvl : LogLevel)
  | ack
  | publish (exchange routingKey : String) (content : String) (headers : Headers)
      (persistent : Bool) (expiration : Option String)
  | sendToQueue (queue : String) (content : String) (headers : Option Headers)
      (persistent : Bool)
deriving DecidableEq, Repr

/-- Whether the composed middleware chain (middlewares plus user handler)
completed or raised; the chain is opaque user code, so its outcome is an
input of the model. -/
inductive HandlerOutcome where
  | ok
  | raised
deriving DecidableEq, Repr

/-- Embedding of `RMQServer.sendToDLQ`: log, then copy content and the raw
header table to the DLQ with `persistent: true`. -/
def sendToDLQ (st : ServerState) (msg : ConsumeMessage) : List Effect :=
  [.log .info, .sendToQueue st.dlqName msg.content msg.headers true]

/-- Embedding of `RMQServer.processMessage`. `registry` is the handler
registry contents (routing key to per-handler options; the handler function
itself is opaque), `parse` models `JSON.parse` success on the payload, and
`outcome` is the result of running the composed middleware chain. Reply
side effects of the user handler are part of the opaque handler and are not
modelled. Returns the channel effects in program order. -/
def processMessage (st : ServerState) (registry : List (String × HandlerOptions))
    (parse : String → Bool) (outcome : HandlerOutcome) (msg : ConsumeMessage) :
    List Effect :=
  let headers := msg.headers.getD []
  let retryCount := retryCountOf headers
  let originalRoutingKey := msg.routingKey
  match lookupAssoc registry originalRoutingKey with
  | some options =>
    if parse msg.content then
      let retryOptions := effectiveRetryOptions st options
      match outcome with
      | .ok => [.ack]
      | .raised =>
        if retryOptions.enabled && jsLtNum retryCount retryOptions.maxRetries then
          -- the guard guarantees retryCount is an actual number here
          let rc := retryCount.getD 0
          let headers2 :=
            setAssoc (setAssoc headers "x-retry-count" (.num (rc + 1)))
              "x-original-routing-key" (.str originalRoutingKey)
          [.log .error,
           .publish st.exchange originalRoutingKey msg.content headers2 true
             (some (toString retryOptions.retryTTL)),
           .ack]
        else
          .log .error :: sendToDLQ st msg ++ [.ack]
    else
      [.log .error, .ack]
  | none => [.log .warn, .ack]

/-! ## Consumer graceful shutdown (src/server/RMQServer.ts `shutdown`) -/

/-- Embedding of `ShutdownResult` (src/interfaces/common.ts). -/
structure ShutdownResult where
  success : Bool
  pendingCount : Nat
  timedOut : Bool
deriving DecidableEq, Repr

/-- Embedding of the polling wait loop inside `RMQServer.shutdown`.
`sizes k` is the size of `inFlightHandlers` observed at loop iteration `k`,
`elapsed k` the value of `Date.now() - startTime` at that iteration; both
are inputs because handler completion and the clock belong to the
environment. Returns `(timedOut, exit iteration)`; `none` when the fuel runs
out before the loop exits (the real loop would keep polling). -/
def shutdownWaitLoop (timeout : Nat) (elapsed sizes : Nat → Nat) :
    Nat → Nat → Option (Bool × Nat)
  | _, 0 => none
  | k, fuel + 1 =>
    if sizes k = 0 then some (false, k)
    else if elapsed k ≥ timeout then some (true, k)
    else shutdownWaitLoop timeout elapsed sizes (k + 1) fuel

/-- Embedding of `RMQServer.shutdown`: cancel-consumer and channel-close
effects are elided (they do not touch the returned result); the wait loop
runs only when not forced and handlers are in flight. `pendingCount` is read
synchronously after the loop exits, so it equals the size at the exit
iteration. -/
def serverShutdown (timeout : Nat) (force : Bool) (elapsed sizes : Nat → Nat)
    (fuel : Nat) : Option ShutdownResult :=
  if !force && sizes 0 > 0 then
    match shutdownWaitLoop timeout elapsed sizes 0 fuel with
    | none => none
    | some (timedOut, k) =>
      some { success := sizes k = 0, pendingCount := sizes k, timedOut := timedOut }
  else
    some { success := sizes 0 = 0, pendingCount := sizes 0, timedOut := false }

/-! ## ConnectionCore (src/core/RMQConnectionManager.ts) -/

/-- Embedding of `ReconnectOptions` (src/interfaces/connection.ts), fully defaulted.
`maxAttempts = none` models the default `Infinity`. Delays and the
multiplier are JS numbers, modelled as rationals. -/
structure ReconnectOpts where
  enabled : Bool
  maxAttempts : Option Nat
  initialDelayMs : Rat
  maxDelayMs : Rat
  backoffMultiplier : Rat
  connectionTimeoutMs : Rat
deriving DecidableEq, Repr

/-- Embedding of `DEFAULT_RECONNECT_OPTIONS` (src/interfaces/connection.ts). -/
def DEFAULT_RECONNECT_OPTIONS : ReconnectOpts :=
  { enabled := true
    maxAttempts := none
    initialDelayMs := 1000
    maxDelayMs := 30000
    backoffMultiplier := 2
    connectionTimeoutMs := 10000 }

/-- Embedding of `DEFAULT_HEARTBEAT` (src/interfaces/connection.ts), in seconds. -/
def DEFAULT_HEARTBEAT : Nat := 10

/-- The guard `this.reconnectAttempt >= this.reconnectOptions.maxAttempts`;
with the default `Infinity` it never holds. -/
def reconnectAtMax (o : ReconnectOpts) (attempt : Nat) : Bool :=
  match o.maxAttempts with
  | some m => attempt ≥ m
  | none => false

/-- The base delay `Math.min(maxDelayMs, initialDelayMs * multiplier^attempt)`
computed by `scheduleReconnect`. -/
def baseDelayOf (o : ReconnectOpts) (attempt : Nat) : Rat :=
  min o.maxDelayMs (o.initialDelayMs * o.backoffMultiplier ^ attempt)

/-- Observable effects of `scheduleReconnect`, in program order. -/
inductive SchedEffect where
  | clearTimer
  | emitMaxAttemptsError
  | setAttempt (n : Nat)
  | setStateReconnecting
  | emitReconnecting (attempt : Nat) (delayMsRounded : Int)
  | armTimer (delayMs : Rat)
deriving DecidableEq, Repr

/-- Embedding of `RMQConnectionManager.scheduleReconnect`. `attempt` is the
current `reconnectAttempt` counter, `timerArmed` whether a previous timer is
outstanding, and `r` the value drawn by `Math.random()` (uniform on
`[0, 1)`). Effects appear in source order: clear any previous timer; on the
max-attempts guard emit the error and stop; otherwise increment the counter,
set state to reconnecting, emit `reconnecting` with the incremented counter
and the rounded delay, and arm the timer with the unrounded delay. -/
def scheduleReconnect (o : ReconnectOpts) (attempt : Nat) (timerArmed : Bool)
    (r : Rat) : List SchedEffect :=
  (if timerArmed then [SchedEffect.clearTimer] else [])
    ++
    (if reconnectAtMax o attempt then
      [SchedEffect.emitMaxAttemptsError]
    else
      let delay := r * baseDelayOf o attempt
      [SchedEffect.setAttempt (attempt + 1),
       SchedEffect.setStateReconnecting,
       SchedEffect.emitReconnecting (attempt + 1) (round delay),
       SchedEffect.armTimer delay])

/-! ### connectWithTimeout (src/core/RMQConnectionManager.ts) -/

/-- How the promise returned by `connectWithTimeout` can settle. -/
inductive CWTResult where
  | conn
  | timeoutErr
  | connectErr
deriving DecidableEq, Repr

/-- State of one `connectWithTimeout` race: the armed timer, the `timedOut`
flag, whether the underlying `amqp.connect` promise has settled, how the
caller promise settled (if at all), and whether a late connection was
closed. -/
structure CWTState where
  timerActive : Bool
  timedOut : Bool
  connSettled : Bool
  callerResult : Option CWTResult
  closedLateConn : Bool
deriving DecidableEq, Repr

/-- State right after `connectWithTimeout` arms its timer. -/
def cwtInit : CWTState :=
  { timerActive := true, timedOut := false, connSettled := false
    callerResult := none, closedLateConn := false }

/-- The three asynchronous callbacks that can run, in any environment-chosen
order. -/
inductive CWTEvent where
  | timerFires
  | connectResolves
  | connectRejects
deriving DecidableEq, Repr

/-- Settle-once semantics of a JS promise: a later settlement is ignored. -/
def promiseSettle (cur : Option CWTResult) (v : CWTResult) : Option CWTResult :=
  match cur with
  | none => some v
  | some w => some w

/-- One callback of `connectWithTimeout`. The timer body sets `timedOut`
and rejects the caller; the connect continuations clear the timer, and when
`timedOut` is already set they close the late connection (on resolve) or
discard the error (on reject) instead of settling the caller. A settled
underlying promise never fires again (`connSettled` guard), and a fired or
cleared timer never fires (`timerActive` guard). -/
def cwtStep (s : CWTState) (e : CWTEvent) : CWTState :=
  match e with
  | .timerFires =>
    if s.timerActive then
      { s with timerActive := false, timedOut := true
               callerResult := promiseSettle s.callerResult .timeoutErr }
    else s
  | .connectResolves =>
    if s.connSettled then s
    else
      let s2 := { s with connSettled := true, timerActive := false }
      if s.timedOut then { s2 with closedLateConn := true }
      else { s2 with callerResult := promiseSettle s2.callerResult .conn }
  | .connectRejects =>
    if s.connSettled then s
    else
      let s2 := { s with connSettled := true, timerActive := false }
      if s.timedOut then s2
      else { s2 with callerResult := promiseSettle s2.callerResult .connectErr }

/-- Run a sequence of callbacks. -/
def cwtRun (s : CWTState) : List CWTEvent → CWTState
  | [] => s
  | e :: es => cwtRun (cwtStep s e) es

/-- The first settlement of the underlying connect promise in an event list,
skipping timer events. -/
def firstConnSettlement : List CWTEvent → Option CWTEvent
  | [] => none
  | CWTEvent.timerFires :: es => firstConnSettlement es
  | e :: _ => some e

/-! ### Singleton accessor and close (src/core/RMQConnectionManager.ts) -/

/-- A patch of `ReconnectOptions` as accepted by the constructor
(`Partial<ReconnectOptions>`): each field optionally present. -/
structure ReconnectOptsPatch where
  enabled : Option Bool
  maxAttempts : Option (Option Nat)
  initialDelayMs : Option Rat
  maxDelayMs : Option Rat
  backoffMultiplier : Option Rat
  connectionTimeoutMs : Option Rat
deriving DecidableEq, Repr

/-- The spread merge `{...DEFAULT_RECONNECT_OPTIONS, ...options.reconnect}`. -/
def mergeReconnectOpts (d : ReconnectOpts) (p : Option ReconnectOptsPatch) :
    ReconnectOpts :=
  match p with
  | none => d
  | some p =>
    { enabled := p.enabled.getD d.enabled
      maxAttempts := p.maxAttempts.getD d.maxAttempts
      initialDelayMs := p.initialDelayMs.getD d.initialDelayMs
      maxDelayMs := p.maxDelayMs.getD d.maxDelayMs
      backoffMultiplier := p.backoffMultiplier.getD d.backoffMultiplier
      connectionTimeoutMs := p.connectionTimeoutMs.getD d.connectionTimeoutMs }

/-- Constructor options of the connection manager, minus the uri. -/
structure CMOptionsIn where
  heartbeat : Option Nat
  reconnect : Option ReconnectOptsPatch
deriving DecidableEq, Repr

/-- Options value with nothing set. -/
def cmOptsNone : CMOptionsIn := ⟨none, none⟩

/-- The configuration a `RMQConnectionManager` instance is constructed
with (its identity for the purpose of the singleton accessor). -/
structure CMInstance where
  uri : String
  heartbeat : Nat
  reconnectOptions : ReconnectOpts
deriving DecidableEq, Repr

/-- Embedding of the private `RMQConnectionManager` constructor. -/
def mkConnectionManager (uri : String) (o : CMOptionsIn) : CMInstance :=
  { uri := uri
    heartbeat := o.heartbeat.getD DEFAULT_HEARTBEAT
    reconnectOptions := mergeReconnectOpts DEFAULT_RECONNECT_OPTIONS o.reconnect }

/-- Embedding of the static `RMQConnectionManager.getInstance`. The first
argument is the static `instance` variable before the call; the result is
the returned instance together with the static variable after the call. -/
def getInstance (instanceVar : Option CMInstance) (uri : String) (o : CMOptionsIn) :
    CMInstance × Option CMInstance :=
  match instanceVar with
  | none =>
    let i := mkConnectionManager uri o
    (i, some i)
  | some i => (i, some i)

/-- Embedding of `ConnectionState` (src/interfaces/connection.ts). -/
inductive ConnState where
  | disconnected
  | connecting
  | connected
  | reconnecting
deriving DecidableEq, Repr

/-- Mutable fields of the connection manager touched by `close`. The
registered-channel set is abstracted to its size; the channel `close`
calls are fire-and-forget for this claim. -/
structure CMState where
  isClosing : Bool
  reconnectTimer : Bool
  registeredChannels : Nat
  hasConnection : Bool
  connState : ConnState
deriving DecidableEq, Repr

/-- First statement of `RMQConnectionManager.close`: `this.isClosing = true`. -/
def closeMark (s : CMState) : CMState :=
  { s with isClosing := true }

/-- Middle of `close`: cancel a pending reconnect timer, close and clear all
registered channels, close and null the connection. -/
def closeTeardown (s : CMState) : CMState :=
  { s with reconnectTimer := false, registeredChannels := 0, hasConnection := false }

/-- Last two statements of `close`: `this.state = disconnected` and
`this.isClosing = false`. -/
def closeFinish (s : CMState) : CMState :=
  { s with connState := .disconnected, isClosing := false }

/-- Embedding of `RMQConnectionManager.close` as the composition of its
three phases. -/
def cmClose (s : CMState) : CMState :=
  closeFinish (closeTeardown (closeMark s))

/-! ## Producer pending requests (src/client/RMQClient.ts `send` / `shutdown`) -/

/-- The ways the promise of one `send` call can settle. -/
inductive SettleKind where
  | resolved
  | parseError
  | timedOutRejection
  | shutdownRejection
deriving DecidableEq, Repr

/-- Live resources of one PendingRequest: the armed timeout timer (absent
when `options.timeout` is null/undefined), the `once` listener registered on
the response emitter under the correlation id, and the entry in the
`pendingRequests` map. -/
structure PendingState where
  timerArmed : Bool
  listenerRegistered : Bool
  inRegistry : Bool
deriving DecidableEq, Repr

/-- State right after `send` registered the request and published: the map
entry and the correlation listener exist; the timer exists iff a timeout was
given. (A synchronous publish failure settles the promise inside `send`
itself, before any of the three asynchronous mechanisms can run; such a
request never reaches this state.) -/
def pendingInit (hasTimer : Bool) : PendingState :=
  { timerArmed := hasTimer, listenerRegistered := true, inRegistry := true }

/-- State after `cleanup` ran: timer cleared, listener removed, map entry
deleted. -/
def pendingCleared : PendingState :=
  { timerArmed := false, listenerRegistered := false, inRegistry := false }

/-- The asynchronous events that can settle a pending request: a reply with
the matching correlation id arrives on the reply queue (its body parsing
either succeeds or fails), the timeout timer fires, or a forced client
shutdown rejects the request. -/
inductive PendingEvent where
  | replyArrives (parseOk : Bool)
  | timerFires
  | shutdownForce
deriving DecidableEq, Repr

/-- One event against one pending request, returning the new state and the
settlement it produced, if any.

From the source: the reply consumer emits on the correlation id, which runs
`cleanupAndResolve` only while the `once` listener is registered — it calls
`cleanup` (clear timer, remove listeners, delete map entry) and then
resolves, or rejects with a parse error. The timer callback runs only if the
timer was armed and not cleared; it calls `cleanup` then rejects with the
timeout error. `shutdown` with `force` finds the request in the map, clears
its timer, removes the listeners, rejects with the shutdown error, and the
map is cleared. -/
def pendingStep (s : PendingState) (e : PendingEvent) :
    PendingState × Option SettleKind :=
  match e with
  | .replyArrives parseOk =>
    if s.listenerRegistered then
      (pendingCleared, some (if parseOk then .resolved else .parseError))
    else (s, none)
  | .timerFires =>
    if s.timerArmed then (pendingCleared, some .timedOutRejection)
    else (s, none)
  | .shutdownForce =>
    if s.inRegistry then (pendingCleared, some .shutdownRejection)
    else (s, none)

/-- Run a sequence of events, collecting every settlement produced. -/
def pendingRun (s : PendingState) : List PendingEvent → PendingState × List SettleKind
  | [] => (s, [])
  | e :: es =>
    let step := pendingStep s e
    let rest := pendingRun step.1 es
    (rest.1, step.2.toList ++ rest.2)

/-! ## Theorems -/

/-- Claim C8, counterexample: a second `getInstance` call with a different
URI returns the very same instance as the first call — still configured with
the first URI — refuting "one ConnectionCore per broker URI". -/
theorem getInstance_not_per_uri :
    (getInstance (getInstance none "amqp://first" cmOptsNone).2 "amqp://second"
        cmOptsNone).1
      = (getInstance none "amqp://first" cmOptsNone).1
    ∧ (getInstance (getInstance none "amqp://first" cmOptsNone).2 "amqp://second"
        cmOptsNone).1.uri = "amqp://first" := by
  exact ⟨rfl, rfl⟩

/-- Claim C8, amended: `getInstance` maintains one process-wide singleton.
The first call creates it from that call.s URI and options; every later call
returns the same instance unchanged, whatever URI or options are passed. -/
theorem getInstance_global_singleton :
    (∀ uri o, getInstance none uri o
        = (mkConnectionManager uri o, some (mkConnectionManager uri o)))
    ∧ (∀ i uri o, getInstance (some i) uri o = (i, some i)) := by
  exact ⟨fun _ _ => rfl, fun _ _ _ => rfl⟩

/-- Claim C9, counterexample: `close()` sets the closing flag on entry but
resets it to `false` in its last statement, so the flag does not remain true
after a close has been requested. Shown on a connected state with an armed
reconnect timer and two registered channels. -/
theorem closingFlag_not_monotone :
    (closeMark ⟨false, true, 2, true, ConnState.connected⟩).isClosing = true
    ∧ (cmClose ⟨false, true, 2, true, ConnState.connected⟩).isClosing = false := by
  exact ⟨rfl, rfl⟩

/-- Claim C9, amended: the closing flag is true from the start of `close()`
and throughout the channel/connection teardown, but the completion of
`close()` itself resets it to false (after setting the state to
disconnected, cancelling the reconnect timer and clearing the registry). -/
theorem closingFlag_during_close :
    ∀ s : CMState,
      (closeMark s).isClosing = true
      ∧ (closeTeardown (closeMark s)).isClosing = true
      ∧ (cmClose s).isClosing = false
      ∧ (cmClose s).connState = ConnState.disconnected
      ∧ (cmClose s).reconnectTimer = false
      ∧ (cmClose s).registeredChannels = 0
      ∧ (cmClose s).hasConnection = false := by
  intro s
  exact ⟨rfl, rfl, rfl, rfl, rfl, rfl, rfl⟩

/-- Claim C4: the classifier returns terminal exactly for errors whose
effective AMQP code (`code || replyCode`) is in the non-recoverable list
402/403/404/406/501/502/503/504/505/530/541 or whose message contains
"ACCESS_REFUSED" or "authentication"; everything else — including the codes
313/320/405/506, TCP failures, connection timeouts, and an absent error —
is recoverable. -/
theorem errorClassifier_terminal_iff :
    (∀ err : Option JsError,
      isNonRecoverableError err = true ↔
        ∃ e, err = some e ∧
          ((∃ c, jsOrNum e.code e.replyCode = some c ∧ c ∈ AMQP_NON_RECOVERABLE_ERRORS)
           ∨ (∃ m, e.message = some m ∧
               (strIncludes m "ACCESS_REFUSED" = true
                ∨ strIncludes m "authentication" = true))))
    ∧ isNonRecoverableError none = false
    ∧ (∀ c ∈ AMQP_NON_RECOVERABLE_ERRORS,
        isNonRecoverableError (some ⟨some c, none, none⟩) = true)
    ∧ (∀ c ∈ AMQP_RECOVERABLE_ERRORS,
        isNonRecoverableError (some ⟨some c, none, none⟩) = false)
    ∧ isNonRecoverableError (some ⟨none, none, some "connect ECONNREFUSED 127.0.0.1:5672"⟩) = false
    ∧ isNonRecoverableError (some ⟨none, none, some "Connection timeout after 10000ms"⟩) = false
    ∧ isNonRecoverableError (some ⟨none, none, some "Handshake terminated by server: 403 ACCESS_REFUSED"⟩) = true
    ∧ isNonRecoverableError (some ⟨none, none, some "authentication failure"⟩) = true := by
  refine ⟨?_, by decide, by decide, by decide, by decide, by decide, by decide, by decide⟩
  intro err
  match err with
  | none => simp [isNonRecoverableError]
  | some e =>
    rcases e with ⟨c0, r0, m0⟩
    simp only [isNonRecoverableError, Bool.or_eq_true]
    constructor
    · rintro (hcode | hmsg)
      · rcases hc : jsOrNum c0 r0 with _ | c
        · rw [hc] at hcode
          exact absurd hcode (by simp)
        · rw [hc] at hcode
          simp only [Bool.and_eq_true, decide_eq_true_eq] at hcode
          exact ⟨⟨c0, r0, m0⟩, rfl, Or.inl ⟨c, hc, List.elem_iff.mp hcode.2⟩⟩
      · rcases m0 with _ | m
        · exact absurd hmsg (by simp)
        · simp only [Bool.or_eq_true] at hmsg
          exact ⟨⟨c0, r0, some m⟩, rfl, Or.inr ⟨m, rfl, hmsg⟩⟩
    · rintro ⟨e2, he2, hcases⟩
      obtain ⟨hc0, hr0, hm0⟩ : e2.code = c0 ∧ e2.replyCode = r0 ∧ e2.message = m0 := by
        cases he2
        exact ⟨rfl, rfl, rfl⟩
      rcases hcases with ⟨c, hc, hmem⟩ | ⟨m, hm, hinc⟩
      · refine Or.inl ?_
        rw [hc0, hr0] at hc
        rw [hc]
        have hne : c ≠ 0 := by
          intro h0
          rw [h0] at hmem
          revert hmem
          decide
        simp only [Bool.and_eq_true, decide_eq_true_eq]
        exact ⟨hne, List.elem_iff.mpr hmem⟩
      · refine Or.inr ?_
        rw [hm0] at hm
        rw [hm]
        simp only [Bool.or_eq_true]
        exact hinc

/-- Claim C5: below the max-attempts guard, `scheduleReconnect` computes the
delay as the uniform draw `r` times `min(maxDelayMs, initialDelayMs *
multiplier^attempt)`, so the delay lies in `[0, min(...)]`; the effect list
shows the attempt counter update (to `attempt + 1`) strictly before the
`reconnecting` emission, and the emitted attempt number equals
`attempt + 1`. -/
theorem scheduleReconnect_backoff (o : ReconnectOpts) (attempt : Nat) (timerArmed : Bool)
    (r : Rat) (h0 : 0 ≤ r) (h1 : r < 1) (hmax : reconnectAtMax o attempt = false)
    (hinit : 0 ≤ o.initialDelayMs) (hcap : 0 ≤ o.maxDelayMs)
    (hmul : 0 ≤ o.backoffMultiplier) :
    scheduleReconnect o attempt timerArmed r
      = (if timerArmed then [SchedEffect.clearTimer] else [])
        ++ [SchedEffect.setAttempt (attempt + 1),
            SchedEffect.setStateReconnecting,
            SchedEffect.emitReconnecting (attempt + 1) (round (r * baseDelayOf o attempt)),
            SchedEffect.armTimer (r * baseDelayOf o attempt)]
    ∧ 0 ≤ r * baseDelayOf o attempt
    ∧ r * baseDelayOf o attempt
        ≤ min o.maxDelayMs (o.initialDelayMs * o.backoffMultiplier ^ attempt) := by
  have hbase : 0 ≤ baseDelayOf o attempt :=
    le_min hcap (mul_nonneg hinit (pow_nonneg hmul attempt))
  refine ⟨by simp [scheduleReconnect, hmax], mul_nonneg h0 hbase, ?_⟩
  have hle := mul_le_of_le_one_left hbase h1.le
  simpa [baseDelayOf] using hle

/-- Witness for C5 at the default options, attempt 2 and `r = 1/2`:
base delay `min(30000, 1000 * 2^2) = 4000`, delay `2000`, emitted attempt 3. -/
theorem scheduleReconnect_backoff_witness :
    (0 ≤ (1/2 : Rat) ∧ (1/2 : Rat) < 1
      ∧ reconnectAtMax DEFAULT_RECONNECT_OPTIONS 2 = false
      ∧ 0 ≤ DEFAULT_RECONNECT_OPTIONS.initialDelayMs
      ∧ 0 ≤ DEFAULT_RECONNECT_OPTIONS.maxDelayMs
      ∧ 0 ≤ DEFAULT_RECONNECT_OPTIONS.backoffMultiplier)
    ∧ scheduleReconnect DEFAULT_RECONNECT_OPTIONS 2 false (1/2)
        = [SchedEffect.setAttempt 3, SchedEffect.setStateReconnecting,
           SchedEffect.emitReconnecting 3 2000, SchedEffect.armTimer 2000]
    ∧ (0:Rat) ≤ 2000 ∧ (2000:Rat) ≤ min 30000 (1000 * 2 ^ 2) := by
  refine ⟨⟨by norm_num, by norm_num, by decide, by decide, by decide, by decide⟩, ?_⟩
  have h := scheduleReconnect_backoff DEFAULT_RECONNECT_OPTIONS 2 false (1/2)
    (by norm_num) (by norm_num) (by decide) (by decide) (by decide) (by decide)
  have hd : (1/2 : Rat) * baseDelayOf DEFAULT_RECONNECT_OPTIONS 2 = 2000 := by
    norm_num [baseDelayOf, DEFAULT_RECONNECT_OPTIONS]
  obtain ⟨h1, h2, h3⟩ := h
  rw [hd] at h1 h2 h3
  refine ⟨?_, h2, by simpa [DEFAULT_RECONNECT_OPTIONS] using h3⟩
  simpa using h1.trans (by norm_num)

/-- Claim C2: a PendingRequest created by `send` is settled at most once;
each of the three mechanisms (reply match — resolving or rejecting with a
parse error —, request timeout, forced shutdown) settles it when it is the
first to fire; every settlement clears the timer, the correlation listener
and the registry entry, after which no event settles it again or changes
its state. -/
theorem pendingRequest_settled_once :
    (∀ (hasTimer : Bool) (es : List PendingEvent),
        (pendingRun (pendingInit hasTimer) es).2.length ≤ 1)
    ∧ (∀ es, pendingRun pendingCleared es = (pendingCleared, []))
    ∧ (∀ hasTimer parseOk,
        pendingStep (pendingInit hasTimer) (.replyArrives parseOk)
          = (pendingCleared, some (if parseOk then .resolved else .parseError)))
    ∧ pendingStep (pendingInit true) .timerFires
        = (pendingCleared, some .timedOutRejection)
    ∧ pendingStep (pendingInit false) .timerFires = (pendingInit false, none)
    ∧ (∀ hasTimer,
        pendingStep (pendingInit hasTimer) .shutdownForce
          = (pendingCleared, some .shutdownRejection)) := by
  have hcleared : ∀ es, pendingRun pendingCleared es = (pendingCleared, []) := by
    intro es
    induction es with
    | nil => rfl
    | cons e es ih => cases e <;> simpa [pendingRun, pendingStep, pendingCleared] using ih
  have hmain : ∀ (es : List PendingEvent) (hasTimer : Bool),
      (pendingRun (pendingInit hasTimer) es).2.length ≤ 1 := by
    intro es
    induction es with
    | nil => intro hasTimer; simp [pendingRun]
    | cons e es ih =>
      intro hasTimer
      cases e with
      | replyArrives parseOk =>
        simp [pendingRun, pendingStep, pendingInit, hcleared es]
      | timerFires =>
        cases hasTimer with
        | true => simp [pendingRun, pendingStep, pendingInit, hcleared es]
        | false => simpa [pendingRun, pendingStep, pendingInit] using ih false
      | shutdownForce =>
        simp [pendingRun, pendingStep, pendingInit, hcleared es]
  exact ⟨fun b es => hmain es b, hcleared, fun _ _ => rfl, rfl, rfl, fun _ => rfl⟩

/-- Once the underlying connect promise has settled and the timer is gone,
no further callback changes the `connectWithTimeout` state. -/
theorem cwtRun_frozen (es : List CWTEvent) :
    ∀ s : CWTState, s.timerActive = false → s.connSettled = true → cwtRun s es = s := by
  induction es with
  | nil => intro s _ _; rfl
  | cons e es ih =>
    intro s hta hcs
    cases e <;> simp [cwtRun, cwtStep, hta, hcs] <;> exact ih s hta hcs

/-- After the timeout fired, the caller promise stays rejected with the
timeout error, whatever the underlying connect later does. -/
theorem cwtRun_keeps_timeout (es : List CWTEvent) :
    ∀ s : CWTState, s.timedOut = true → s.timerActive = false →
      (cwtRun s es).callerResult = s.callerResult := by
  induction es with
  | nil => intro s _ _; rfl
  | cons e es ih =>
    intro s hto hta
    cases e with
    | timerFires => simpa [cwtRun, cwtStep, hta] using ih s hto hta
    | connectResolves =>
      by_cases hcs : s.connSettled = true
      · simpa [cwtRun, cwtStep, hcs] using ih s hto hta
      · have hcs2 : s.connSettled = false := by simpa using hcs
        simpa [cwtRun, cwtStep, hcs2, hto] using
          ih { s with connSettled := true, timerActive := false, closedLateConn := true }
            hto rfl
    | connectRejects =>
      by_cases hcs : s.connSettled = true
      · simpa [cwtRun, cwtStep, hcs] using ih s hto hta
      · have hcs2 : s.connSettled = false := by simpa using hcs
        simpa [cwtRun, cwtStep, hcs2, hto] using
          ih { s with connSettled := true, timerActive := false } hto rfl

/-- After the timeout fired and while the underlying connect is still
pending, the late connection gets closed exactly when the first settlement
of the underlying connect is a resolution. -/
theorem cwtRun_lateClose (es : List CWTEvent) :
    ∀ s : CWTState, s.timedOut = true → s.timerActive = false →
      s.connSettled = false → s.closedLateConn = false →
      (cwtRun s es).closedLateConn
        = decide (firstConnSettlement es = some CWTEvent.connectResolves) := by
  induction es with
  | nil =>
    intro s _ _ _ hcl
    simp [cwtRun, firstConnSettlement, hcl]
  | cons e es ih =>
    intro s hto hta hcs hcl
    cases e with
    | timerFires =>
      simpa [cwtRun, cwtStep, hta, firstConnSettlement] using ih s hto hta hcs hcl
    | connectResolves =>
      have hfrozen := cwtRun_frozen es
        { s with connSettled := true, timerActive := false, closedLateConn := true } rfl rfl
      simp only [hto, hcl] at hfrozen
      simp [cwtRun, cwtStep, hcs, hto, firstConnSettlement, hfrozen]
    | connectRejects =>
      have hfrozen := cwtRun_frozen es
        { s with connSettled := true, timerActive := false } rfl rfl
      simp only [hto, hcl] at hfrozen
      simp [cwtRun, cwtStep, hcs, hto, firstConnSettlement, hfrozen, hcl]

/-- Claim C3: if the per-attempt timer fires before the underlying connect
settles, the caller is rejected with the connection timeout and stays so;
a late successful connect gets its connection closed (no socket leak); a
late connect failure is discarded without closing anything and without
reaching the caller. -/
theorem connectWithTimeout_leak_prevention :
    ∀ es : List CWTEvent,
      (cwtRun cwtInit (CWTEvent.timerFires :: es)).callerResult
          = some CWTResult.timeoutErr
      ∧ (firstConnSettlement es = some CWTEvent.connectResolves →
          (cwtRun cwtInit (CWTEvent.timerFires :: es)).closedLateConn = true)
      ∧ (firstConnSettlement es = some CWTEvent.connectRejects →
          (cwtRun cwtInit (CWTEvent.timerFires :: es)).closedLateConn = false) := by
  intro es
  have hstep : cwtStep cwtInit CWTEvent.timerFires
      = { timerActive := false, timedOut := true, connSettled := false
          callerResult := some CWTResult.timeoutErr, closedLateConn := false } := rfl
  have hrun : cwtRun cwtInit (CWTEvent.timerFires :: es)
      = cwtRun { timerActive := false, timedOut := true, connSettled := false
                 callerResult := some CWTResult.timeoutErr, closedLateConn := false } es := by
    simp [cwtRun, hstep]
  have hclose := cwtRun_lateClose es
    { timerActive := false, timedOut := true, connSettled := false
      callerResult := some CWTResult.timeoutErr, closedLateConn := false }
    rfl rfl rfl rfl
  refine ⟨?_, ?_, ?_⟩
  · rw [hrun]
    exact cwtRun_keeps_timeout es _ rfl rfl
  · intro hfst
    rw [hrun, hclose, hfst]
    simp
  · intro hfst
    rw [hrun, hclose, hfst]
    simp

/-- Witness for C3: timer fires, then the underlying connect resolves late;
the caller saw the timeout rejection and the late connection was closed. -/
theorem connectWithTimeout_leak_prevention_witness :
    (cwtRun cwtInit [CWTEvent.timerFires, CWTEvent.connectResolves]).callerResult
        = some CWTResult.timeoutErr
    ∧ (cwtRun cwtInit [CWTEvent.timerFires, CWTEvent.connectResolves]).closedLateConn
        = true := by
  exact ⟨(connectWithTimeout_leak_prevention [CWTEvent.connectResolves]).1,
    (connectWithTimeout_leak_prevention [CWTEvent.connectResolves]).2.1 rfl⟩

/-- Exit characterization of the shutdown wait loop: a timed-out exit sees
in-flight handlers and an expired deadline; a normal exit sees a drained
set. -/
theorem shutdownWaitLoop_exit (timeout : Nat) (elapsed sizes : Nat → Nat) :
    ∀ (fuel k : Nat) (b : Bool) (k2 : Nat),
      shutdownWaitLoop timeout elapsed sizes k fuel = some (b, k2) →
      (b = true → sizes k2 ≠ 0 ∧ elapsed k2 ≥ timeout)
      ∧ (b = false → sizes k2 = 0) := by
  intro fuel
  induction fuel with
  | zero =>
    intro k b k2 h
    simp [shutdownWaitLoop] at h
  | succ n ih =>
    intro k b k2 h
    simp only [shutdownWaitLoop] at h
    split_ifs at h with h0 h1
    · simp only [Option.some.injEq, Prod.mk.injEq] at h
      obtain ⟨hb, hk⟩ := h
      subst hb
      subst hk
      exact ⟨fun ht => by simp at ht, fun _ => h0⟩
    · simp only [Option.some.injEq, Prod.mk.injEq] at h
      obtain ⟨hb, hk⟩ := h
      subst hb
      subst hk
      exact ⟨fun _ => ⟨h0, h1⟩, fun hf => by simp at hf⟩
    · exact ih (k + 1) b k2 h

/-- Claim C6: the consumer shutdown result satisfies
`success = (pendingCount == 0)`; `timedOut` implies handlers were still in
flight at an iteration whose elapsed time reached the deadline; without
`force`, a non-timed-out return means the in-flight set drained; and a
shutdown with zero timeout, no force, and at least one in-flight handler
reports `timedOut = true`. -/
theorem serverShutdown_result (timeout : Nat) (force : Bool) (elapsed sizes : Nat → Nat)
    (fuel : Nat) (r : ShutdownResult)
    (h : serverShutdown timeout force elapsed sizes fuel = some r) :
    (r.success = true ↔ r.pendingCount = 0)
    ∧ (r.timedOut = true →
        r.pendingCount > 0 ∧ ∃ k, r.pendingCount = sizes k ∧ elapsed k ≥ timeout)
    ∧ (r.timedOut = false → force = true ∨ r.pendingCount = 0)
    ∧ (timeout = 0 → force = false → sizes 0 > 0 → r.timedOut = true) := by
  unfold serverShutdown at h
  by_cases hcond : (!force && decide (sizes 0 > 0)) = true
  · rw [if_pos hcond] at h
    rcases hl : shutdownWaitLoop timeout elapsed sizes 0 fuel with _ | bk
    · rw [hl] at h
      cases h
    · obtain ⟨b, k⟩ := bk
      rw [hl] at h
      simp only [Option.some.injEq] at h
      subst h
      have hexit := shutdownWaitLoop_exit timeout elapsed sizes fuel 0 b k hl
      refine ⟨by simp, ?_, ?_, ?_⟩
      · intro ht
        have hb : b = true := ht
        obtain ⟨hsz, hel⟩ := hexit.1 hb
        exact ⟨Nat.pos_of_ne_zero hsz, k, rfl, hel⟩
      · intro hf
        have hb : b = false := hf
        exact Or.inr (hexit.2 hb)
      · intro ht0 _ hsz0
        by_contra hbt
        have hb : b = false := by
          rcases b with _ | _
          · rfl
          · exact absurd rfl hbt
        have := hexit.2 hb
        cases fuel with
        | zero => simp [shutdownWaitLoop] at hl
        | succ n =>
          have hs0 : ¬ sizes 0 = 0 := Nat.pos_iff_ne_zero.mp hsz0
          rw [ht0] at hl
          simp [shutdownWaitLoop, hs0] at hl
          exact hbt hl.1
  · rw [if_neg hcond] at h
    simp only [Option.some.injEq] at h
    subst h
    simp only [Bool.and_eq_true, Bool.not_eq_true', decide_eq_true_eq] at hcond
    refine ⟨by simp, by simp, ?_, ?_⟩
    · intro _
      by_cases hf : force = true
      · exact Or.inl hf
      · have : ¬ sizes 0 > 0 := by
          intro hgt
          exact hcond ⟨by simpa using hf, hgt⟩
        exact Or.inr (Nat.eq_zero_of_not_pos this)
    · intro _ hf hsz
      exact absurd ⟨by simp [hf], hsz⟩ hcond

/-- Witness for C6: zero timeout, no force, one handler in flight; the
returned result reports the timeout. -/
theorem serverShutdown_result_witness :
    serverShutdown 0 false (fun _ => 0) (fun _ => 1) 1
        = some { success := false, pendingCount := 1, timedOut := true }
    ∧ ({ success := false, pendingCount := 1, timedOut := true } : ShutdownResult).timedOut
        = true := by
  refine ⟨rfl, ?_⟩
  have h := serverShutdown_result 0 false (fun _ => 0) (fun _ => 1) 1
      { success := false, pendingCount := 1, timedOut := true } rfl
  exact h.2.2.2 rfl rfl (by norm_num)

/-- Looking up the key just written finds the new value. -/
theorem lookupAssoc_setAssoc_self {α : Type} (l : List (String × α)) (k : String) (v : α) :
    lookupAssoc (setAssoc l k v) k = some v := by
  induction l with
  | nil => simp [setAssoc, lookupAssoc]
  | cons p rest ih =>
    obtain ⟨k2, w⟩ := p
    by_cases hk : k2 = k
    · simp [setAssoc, lookupAssoc, hk]
    · simp [setAssoc, lookupAssoc, hk, ih]

/-- Writing one key leaves lookups of a different key unchanged. -/
theorem lookupAssoc_setAssoc_ne {α : Type} (l : List (String × α)) (k k2 : String) (v : α)
    (h : k2 ≠ k) : lookupAssoc (setAssoc l k2 v) k = lookupAssoc l k := by
  induction l with
  | nil => simp [setAssoc, lookupAssoc, h]
  | cons p rest ih =>
    obtain ⟨k3, w⟩ := p
    by_cases h3 : k3 = k2
    · subst h3
      simp [setAssoc, lookupAssoc, h]
    · by_cases h4 : k3 = k
      · subst h4
        simp [setAssoc, lookupAssoc, h3]
      · simp [setAssoc, lookupAssoc, h3, h4, ih]

/-- Claim C1: when the handler raises on a parsed delivery, if retries are
enabled and the read retry count is below max-retries, the consumer
publishes to the primary exchange under the original routing key (a
`publish`, not a direct send to the retry queue) with `x-retry-count`
incremented, `x-original-routing-key` set to the delivery routing key,
`persistent` and `expiration = retry-ttl`, then acks; otherwise it copies
payload and raw headers to the DLQ via `sendToQueue` with `persistent`,
then acks. -/
theorem processMessage_retry_or_dlq (st : ServerState)
    (registry : List (String × HandlerOptions)) (parse : String → Bool)
    (msg : ConsumeMessage) (opts : HandlerOptions) (rc : Int)
    (hreg : lookupAssoc registry msg.routingKey = some opts)
    (hparse : parse msg.content = true)
    (hrc : retryCountOf (msg.headers.getD []) = some rc) :
    ((effectiveRetryOptions st opts).enabled = true →
      rc < (effectiveRetryOptions st opts).maxRetries →
      processMessage st registry parse .raised msg
        = [.log .error,
           .publish st.exchange msg.routingKey msg.content
             (setAssoc (setAssoc (msg.headers.getD []) "x-retry-count" (.num (rc + 1)))
               "x-original-routing-key" (.str msg.routingKey))
             true (some (toString (effectiveRetryOptions st opts).retryTTL)),
           .ack]
        ∧ lookupAssoc
            (setAssoc (setAssoc (msg.headers.getD []) "x-retry-count" (.num (rc + 1)))
              "x-original-routing-key" (.str msg.routingKey)) "x-retry-count"
            = some (.num (rc + 1))
        ∧ rc < rc + 1
        ∧ lookupAssoc
            (setAssoc (setAssoc (msg.headers.getD []) "x-retry-count" (.num (rc + 1)))
              "x-original-routing-key" (.str msg.routingKey)) "x-original-routing-key"
            = some (.str msg.routingKey))
    ∧ (¬ ((effectiveRetryOptions st opts).enabled = true
          ∧ rc < (effectiveRetryOptions st opts).maxRetries) →
        processMessage st registry parse .raised msg
          = [.log .error, .log .info,
             .sendToQueue st.dlqName msg.content msg.headers true, .ack]) := by
  constructor
  · intro hen hlt
    refine ⟨?_, ?_, by omega, lookupAssoc_setAssoc_self _ _ _⟩
    · simp [processMessage, hreg, hparse, hrc, hen, jsLtNum, hlt]
    · rw [lookupAssoc_setAssoc_ne _ _ _ _ (by decide)]
      exact lookupAssoc_setAssoc_self _ _ _
  · intro hne
    have hguard : ((effectiveRetryOptions st opts).enabled
        && jsLtNum (retryCountOf (msg.headers.getD []))
            (effectiveRetryOptions st opts).maxRetries) = false := by
      rw [hrc]
      by_cases he : (effectiveRetryOptions st opts).enabled = true
      · have hl : ¬ rc < (effectiveRetryOptions st opts).maxRetries :=
          fun hl => hne ⟨he, hl⟩
        simp [he, jsLtNum, hl]
      · have he2 : (effectiveRetryOptions st opts).enabled = false := by
          simpa using he
        simp [he2]
    simp [processMessage, hreg, hparse, hguard, sendToDLQ]

/-- Witness for C1: one application in the retry branch (count 1 of max 3)
and one in the exhausted branch (count 3 of max 3). -/
theorem processMessage_retry_or_dlq_witness :
    processMessage (mkServer ⟨"app", none, some ⟨none, none, some true⟩⟩)
        [("task.run", noHandlerOverrides)] (fun _ => true) .raised
        ⟨"task.run", some [("x-retry-count", .num 1)], "p", none, none⟩
      = [.log .error,
         .publish "app" "task.run" "p"
           [("x-retry-count", .num 2), ("x-original-routing-key", .str "task.run")]
           true (some "5000"),
         .ack]
    ∧ processMessage (mkServer ⟨"app", none, some ⟨none, none, some true⟩⟩)
        [("task.run", noHandlerOverrides)] (fun _ => true) .raised
        ⟨"task.run", some [("x-retry-count", .num 3)], "p", none, none⟩
      = [.log .error, .log .info,
         .sendToQueue "app.dlq" "p" (some [("x-retry-count", .num 3)]) true, .ack] := by
  constructor
  · have h := (processMessage_retry_or_dlq (mkServer ⟨"app", none, some ⟨none, none, some true⟩⟩)
      [("task.run", noHandlerOverrides)] (fun _ => true)
      ⟨"task.run", some [("x-retry-count", .num 1)], "p", none, none⟩
      noHandlerOverrides 1 (by decide) rfl (by decide)).1 (by decide) (by decide)
    exact h.1.trans (by decide)
  · have h := (processMessage_retry_or_dlq (mkServer ⟨"app", none, some ⟨none, none, some true⟩⟩)
      [("task.run", noHandlerOverrides)] (fun _ => true)
      ⟨"task.run", some [("x-retry-count", .num 3)], "p", none, none⟩
      noHandlerOverrides 3 (by decide) rfl (by decide)).2 (by decide)
    exact h.trans (by decide)

/-- Claim C7: a delivery whose routing key has no registered handler is
acked immediately after a warn log; a delivery whose payload fails to parse
is acked after a log; neither path publishes, republishes, or copies to the
DLQ. -/
theorem processMessage_poison_safe (st : ServerState)
    (registry : List (String × HandlerOptions)) (parse : String → Bool)
    (outcome : HandlerOutcome) (msg : ConsumeMessage) :
    (lookupAssoc registry msg.routingKey = none →
      processMessage st registry parse outcome msg = [.log .warn, .ack])
    ∧ (∀ opts, lookupAssoc registry msg.routingKey = some opts →
        parse msg.content = false →
        processMessage st registry parse outcome msg = [.log .error, .ack]) := by
  constructor
  · intro hreg
    simp [processMessage, hreg]
  · intro opts hreg hparse
    simp [processMessage, hreg, hparse]

/-- Witness for C7: an unmatched routing key is only warn-logged and acked;
an unparsable payload is only logged and acked. -/
theorem processMessage_poison_safe_witness :
    processMessage (mkServer ⟨"app", none, none⟩) [] (fun _ => true) .ok
        ⟨"nobody.home", none, "p", none, none⟩
      = [.log .warn, .ack]
    ∧ processMessage (mkServer ⟨"app", none, none⟩) [("task.run", noHandlerOverrides)]
        (fun _ => false) .ok ⟨"task.run", none, "not json", none, none⟩
      = [.log .error, .ack] := by
  exact ⟨(processMessage_poison_safe (mkServer ⟨"app", none, none⟩) [] (fun _ => true) .ok
      ⟨"nobody.home", none, "p", none, none⟩).1 rfl,
    (processMessage_poison_safe (mkServer ⟨"app", none, none⟩)
      [("task.run", noHandlerOverrides)] (fun _ => false) .ok
      ⟨"task.run", none, "not json", none, none⟩).2 noHandlerOverrides (by decide) rfl⟩

/-- Claim C10: with no `retryOptions.enabled` given at construction the
effective default is disabled (while the default max-retries is still 3),
and a handler without a per-route `retryEnabled` override therefore goes to
the DLQ on its first exception — no retry republish happens. -/
theorem retries_disabled_by_default (o : RMQServerOptionsM)
    (hen : o.retryOptions.bind RetryOptionsIn.enabled = none)
    (registry : List (String × HandlerOptions)) (parse : String → Bool)
    (msg : ConsumeMessage) (opts : HandlerOptions)
    (hreg : lookupAssoc registry msg.routingKey = some opts)
    (hopt : opts.retryEnabled = none)
    (hparse : parse msg.content = true) :
    (mkServer o).defaultRetryOptions.enabled = false
    ∧ (mkServer ⟨o.appName, o.exchange, none⟩).defaultRetryOptions.maxRetries = 3
    ∧ (effectiveRetryOptions (mkServer o) opts).enabled = false
    ∧ processMessage (mkServer o) registry parse .raised msg
        = [.log .error, .log .info,
           .sendToQueue (mkServer o).dlqName msg.content msg.headers true, .ack] := by
  have hdef : (mkServer o).defaultRetryOptions.enabled = false := by
    simp [mkServer, hen]
  have heff : (effectiveRetryOptions (mkServer o) opts).enabled = false := by
    simp [effectiveRetryOptions, hopt, hdef]
  refine ⟨hdef, by simp [mkServer], heff, ?_⟩
  simp [processMessage, hreg, hparse, heff, sendToDLQ]

/-- Witness for C10: a server constructed without retry options sends a
first-failure message straight to the DLQ. -/
theorem retries_disabled_by_default_witness :
    (mkServer ⟨"app", none, none⟩).defaultRetryOptions.enabled = false
    ∧ (mkServer ⟨"app", none, none⟩).defaultRetryOptions.maxRetries = 3
    ∧ processMessage (mkServer ⟨"app", none, none⟩) [("task.run", noHandlerOverrides)]
        (fun _ => true) .raised ⟨"task.run", none, "p", none, none⟩
      = [.log .error, .log .info, .sendToQueue "app.dlq" "p" none true, .ack] := by
  have h := retries_disabled_by_default ⟨"app", none, none⟩ rfl
    [("task.run", noHandlerOverrides)] (fun _ => true)
    ⟨"task.run", none, "p", none, none⟩ noHandlerOverrides (by decide) rfl rfl
  exact ⟨h.1, h.2.1, h.2.2.2.trans (by decide)⟩

end BunnyRoute
